import Mathlib

/-!
Verification of the outbound-request encoding layer of the Roku remote
debugger client (`DebuggerRequest.py`).  The Python classes are shallowly
embedded: each request class becomes a structure, each constructor becomes a
function returning `Option` (Python `assert` / attribute-lookup failures
become `none`), and each `send` method becomes a state-passing function over
an abstract codec (`DebuggerClient`).  Byte counts use `Nat`; Python string
UTF-8 encoding length is `String.utf8ByteSize`.
-/

namespace RokuDebug

def UINT8_SIZE : Nat := 1
def UINT32_SIZE : Nat := 4

/-- Size in bytes of a simple request with no parameters:
packetSize, requestID, cmdCode. -/
def NO_PARAMS_REQUEST_SIZE : Nat := 3 * UINT32_SIZE

/-- `class CmdCode(enum.IntEnum)` from the source. -/
inductive CmdCode where
  | STOP
  | CONTINUE
  | THREADS
  | STACKTRACE
  | VARIABLES
  | STEP
  | EXIT_CHANNEL
deriving DecidableEq, Repr

/-- Numeric wire value of each command code, as in the source enum. -/
def CmdCode.value : CmdCode → Nat
  | .STOP => 1
  | .CONTINUE => 2
  | .THREADS => 3
  | .STACKTRACE => 4
  | .VARIABLES => 5
  | .STEP => 6
  | .EXIT_CHANNEL => 122

/-- `class StepType(enum.IntEnum)` from the source. -/
inductive StepType where
  | NONE
  | LINE
  | OUT
  | OVER
deriving DecidableEq, Repr

def StepType.value : StepType → Nat
  | .NONE => 0
  | .LINE => 1
  | .OUT => 2
  | .OVER => 3

/-- `_VariablesRequestFlags.GET_CHILD_KEYS` from the source. -/
def GET_CHILD_KEYS : Nat := 0x01

/-- The dynamically-typed argument passed as `step_type` to the Step
constructor: either an actual `StepType` enum member, or some other Python
value (here represented by an integer), which `isinstance` rejects. -/
inductive StepArg where
  | stepType (t : StepType)
  | other (v : Int)
deriving DecidableEq, Repr

/-- Python values usable as opaque `caller_data` (the code never inspects
them, only stores them; `None` is the default). -/
inductive CallerData where
  | none
  | bool (b : Bool)
  | int (n : Int)
  | str (s : String)
deriving DecidableEq, Repr

/-- The `gMain` object reached through `sys.modules` by every constructor;
only its `gDebugLevel` attribute is read. -/
structure GMainObj where
  gDebugLevel : Int
deriving DecidableEq, Repr

/-- The `__main__` module: `gMain` may be absent, in which case the
attribute lookup in `DebuggerRequest.__init__` fails. -/
structure MainModule where
  gMain : Option GMainObj
deriving DecidableEq, Repr

/-- Base fields of every request (`class DebuggerRequest`). -/
structure DebuggerRequest where
  _debug : Int
  cmd_code : CmdCode
  request_id : Option Nat
  caller_data : CallerData
deriving DecidableEq, Repr

/-- `DebuggerRequest.__init__`: reads `sys.modules[__main__].gMain` (fails
when absent), stores `_debug = max(gMain.gDebugLevel, 0)`, the command code,
`request_id = None` and the caller data. -/
def DebuggerRequest.init (env : MainModule) (cmdCode : CmdCode)
    (caller_data : CallerData) : Option DebuggerRequest :=
  match env.gMain with
  | Option.none => Option.none
  | Option.some g =>
    Option.some
      { _debug := max g.gDebugLevel 0
        cmd_code := cmdCode
        request_id := Option.none
        caller_data := caller_data }

/-- The abstract primitive-value codec (`debugger_client`): state-passing
versions of `get_next_request_id`, `send_uint`, `send_byte`, `send_str`,
each write returning its byte count. -/
structure DebuggerClient (σ : Type) where
  get_next_request_id : σ → Nat × σ
  send_uint : Int → σ → Nat × σ
  send_byte : Nat → σ → Nat × σ
  send_str : String → σ → Nat × σ

/-- `DebuggerRequest.__verify_num_written`: returns the actual count when it
matches the expected one, otherwise raises `AssertionError`. -/
def __verify_num_written (expected actual : Nat) : Except String Nat :=
  if expected = actual then Except.ok actual
  else
    Except.error ("INTERNAL ERROR: bad size written expected="
      ++ toString expected ++ ",actual=" ++ toString actual)

/-- `DebuggerRequest._send_base_fields`: allocates the request id from the
codec, writes packetSize, requestID, cmdCode as uint32s, verifies that 12
bytes were written, and returns the count together with the updated request
and codec state. -/
def _send_base_fields {σ : Type} (dc : DebuggerClient σ)
    (req : DebuggerRequest) (packet_size : Nat) (s : σ) :
    Except String (Nat × DebuggerRequest × σ) :=
  let p1 := dc.get_next_request_id s
  let rid := p1.1
  let req1 := { req with request_id := Option.some rid }
  let q1 := dc.send_uint (packet_size : Int) p1.2
  let q2 := dc.send_uint (rid : Int) q1.2
  let q3 := dc.send_uint (req1.cmd_code.value : Int) q2.2
  let count := 0 + q1.1 + q2.1 + q3.1
  match __verify_num_written NO_PARAMS_REQUEST_SIZE count with
  | Except.error e => Except.error e
  | Except.ok actual => Except.ok (actual, req1, q3.2)

/-- `_DebuggerRequest_NoParams.send`: just the base fields, with
`packet_size = NO_PARAMS_REQUEST_SIZE`. -/
def _DebuggerRequest_NoParams.send {σ : Type} (dc : DebuggerClient σ)
    (req : DebuggerRequest) (s : σ) :
    Except String (Nat × DebuggerRequest × σ) :=
  _send_base_fields dc req NO_PARAMS_REQUEST_SIZE s

/-- `DebuggerRequest_Continue.__init__` (passes `False` as caller data). -/
def DebuggerRequest_Continue.init (env : MainModule) :
    Option DebuggerRequest :=
  DebuggerRequest.init env CmdCode.CONTINUE (CallerData.bool false)

/-- `DebuggerRequest_ExitChannel.__init__` (passes `False` as caller data). -/
def DebuggerRequest_ExitChannel.init (env : MainModule) :
    Option DebuggerRequest :=
  DebuggerRequest.init env CmdCode.EXIT_CHANNEL (CallerData.bool false)

/-- `DebuggerRequest_Stop.__init__`. -/
def DebuggerRequest_Stop.init (env : MainModule) : Option DebuggerRequest :=
  DebuggerRequest.init env CmdCode.STOP CallerData.none

/-- `DebuggerRequest_Threads.__init__`. -/
def DebuggerRequest_Threads.init (env : MainModule)
    (caller_data : CallerData) : Option DebuggerRequest :=
  DebuggerRequest.init env CmdCode.THREADS caller_data

/-- `class DebuggerRequest_Stacktrace`. -/
structure DebuggerRequest_Stacktrace where
  base : DebuggerRequest
  _request_size : Nat
  thread_index : Int
deriving DecidableEq, Repr

/-- `DebuggerRequest_Stacktrace.__init__`: base init, then stores
`_request_size = NO_PARAMS_REQUEST_SIZE + UINT32_SIZE` and the thread index
(note: the source performs no validation of `thread_index` here). -/
def DebuggerRequest_Stacktrace.init (env : MainModule) (thread_index : Int)
    (caller_data : CallerData) : Option DebuggerRequest_Stacktrace :=
  match DebuggerRequest.init env CmdCode.STACKTRACE caller_data with
  | Option.none => Option.none
  | Option.some base =>
    Option.some
      { base := base
        _request_size := NO_PARAMS_REQUEST_SIZE + UINT32_SIZE
        thread_index := thread_index }

/-- `DebuggerRequest_Stacktrace.send`: base fields with the stored size,
then the thread index as a uint32. -/
def DebuggerRequest_Stacktrace.send {σ : Type} (dc : DebuggerClient σ)
    (req : DebuggerRequest_Stacktrace) (s : σ) :
    Except String (DebuggerRequest_Stacktrace × σ) :=
  match _send_base_fields dc req.base req._request_size s with
  | Except.error e => Except.error e
  | Except.ok (_, base1, s1) =>
    let q := dc.send_uint req.thread_index s1
    Except.ok ({ req with base := base1 }, q.2)

/-- `class DebuggerRequest_Step`. -/
structure DebuggerRequest_Step where
  base : DebuggerRequest
  thread_index : Int
  step_type : StepType
  _request_size : Nat
deriving DecidableEq, Repr

/-- `DebuggerRequest_Step.__init__`: first `assert isinstance(step_type,
StepType)`, then base init (caller data defaults to `None`), then stores the
fields and `_request_size = NO_PARAMS_REQUEST_SIZE + UINT32_SIZE +
UINT8_SIZE`. -/
def DebuggerRequest_Step.init (env : MainModule) (thread_index : Int)
    (step_type : StepArg) : Option DebuggerRequest_Step :=
  match step_type with
  | StepArg.other _ => Option.none
  | StepArg.stepType t =>
    match DebuggerRequest.init env CmdCode.STEP CallerData.none with
    | Option.none => Option.none
    | Option.some base =>
      Option.some
        { base := base
          thread_index := thread_index
          step_type := t
          _request_size := NO_PARAMS_REQUEST_SIZE + UINT32_SIZE + UINT8_SIZE }

/-- `DebuggerRequest_Step.send`: base fields with the stored size, then the
thread index as a uint32, then the step type's value as a byte. -/
def DebuggerRequest_Step.send {σ : Type} (dc : DebuggerClient σ)
    (req : DebuggerRequest_Step) (s : σ) :
    Except String (DebuggerRequest_Step × σ) :=
  match _send_base_fields dc req.base req._request_size s with
  | Except.error e => Except.error e
  | Except.ok (_, base1, s1) =>
    let q1 := dc.send_uint req.thread_index s1
    let q2 := dc.send_byte req.step_type.value q1.2
    Except.ok ({ req with base := base1 }, q2.2)

/-- `class DebuggerRequest_Variables`. -/
structure DebuggerRequest_Variables where
  base : DebuggerRequest
  get_child_keys : Bool
  thread_index : Int
  stack_index : Int
  variable_path : List String
  _request_size : Nat
deriving DecidableEq, Repr

/-- UTF-8 size accumulation of the path loop in
`DebuggerRequest_Variables.__init__`:
`request_size += len(elem.encode(utf-8)) + 1` for each element. -/
def variablePathBytes (path : List String) : Nat :=
  path.foldl (fun acc e => acc + (e.utf8ByteSize + 1)) 0

/-- `DebuggerRequest_Variables.__init__`: base init, asserts
`thread_index >= 0`, `stack_index >= 0`, normalizes a falsy path to `[]`,
and computes `_request_size = NO_PARAMS_REQUEST_SIZE + UINT8_SIZE +
3*UINT32_SIZE` plus UTF-8 length + 1 for every path element. -/
def DebuggerRequest_Variables.init (env : MainModule) (thread_index : Int)
    (stack_index : Int) (variable_path : Option (List String))
    (get_child_keys : Bool) (caller_data : CallerData) :
    Option DebuggerRequest_Variables :=
  match DebuggerRequest.init env CmdCode.VARIABLES caller_data with
  | Option.none => Option.none
  | Option.some base =>
    if 0 ≤ thread_index ∧ 0 ≤ stack_index then
      let path :=
        match variable_path with
        | Option.none => []
        | Option.some p => p
      Option.some
        { base := base
          get_child_keys := get_child_keys
          thread_index := thread_index
          stack_index := stack_index
          variable_path := path
          _request_size :=
            NO_PARAMS_REQUEST_SIZE + UINT8_SIZE + 3 * UINT32_SIZE
              + variablePathBytes path }
    else Option.none

/-- Flags byte computed in `DebuggerRequest_Variables.send`:
`flags = 0; if get_child_keys: flags |= GET_CHILD_KEYS`. -/
def variablesFlags (get_child_keys : Bool) : Nat :=
  if get_child_keys then 0 ||| GET_CHILD_KEYS else 0

/-- The path-writing loop of `DebuggerRequest_Variables.send`:
`for elem in path: dc.send_str(elem)`. -/
def sendVariablePath {σ : Type} (dc : DebuggerClient σ)
    (path : List String) (s : σ) : σ :=
  path.foldl (fun st e => (dc.send_str e st).2) s

/-- `DebuggerRequest_Variables.send`: base fields with the stored size, then
the flags byte, thread index, stack index, path length, then every path
element through `send_str`. -/
def DebuggerRequest_Variables.send {σ : Type} (dc : DebuggerClient σ)
    (req : DebuggerRequest_Variables) (s : σ) :
    Except String (DebuggerRequest_Variables × σ) :=
  match _send_base_fields dc req.base req._request_size s with
  | Except.error e => Except.error e
  | Except.ok (_, base1, s1) =>
    let q1 := dc.send_byte (variablesFlags req.get_child_keys) s1
    let q2 := dc.send_uint req.thread_index q1.2
    let q3 := dc.send_uint req.stack_index q2.2
    let q4 := dc.send_uint (req.variable_path.length : Int) q3.2
    let s5 := sendVariablePath dc req.variable_path q4.2
    Except.ok ({ req with base := base1 }, s5)

/-! ## A contractual codec instance

`spec_codec` records every write in a trace and returns the contractual
byte count for each write: 4 per uint32, 1 per byte, UTF-8 byte length + 1
per string.  Its request-id source is a counter returning fresh,
strictly increasing values. -/

/-- One write performed through the codec. -/
inductive WriteEvent where
  | uint (v : Int)
  | byte (v : Nat)
  | str (s : String)
deriving DecidableEq, Repr

/-- Contractual byte count of a write. -/
def WriteEvent.size : WriteEvent → Nat
  | .uint _ => UINT32_SIZE
  | .byte _ => UINT8_SIZE
  | .str s => s.utf8ByteSize + 1

/-- State of the contractual codec: next fresh request id, and the list of
writes performed so far. -/
structure CodecState where
  next_id : Nat
  trace : List WriteEvent
deriving DecidableEq, Repr

/-- Total number of bytes of a write trace. -/
def traceBytes (l : List WriteEvent) : Nat :=
  (l.map WriteEvent.size).sum

/-- The contractual codec. -/
def spec_codec : DebuggerClient CodecState where
  get_next_request_id s := (s.next_id, { s with next_id := s.next_id + 1 })
  send_uint v s := (UINT32_SIZE, { s with trace := s.trace ++ [WriteEvent.uint v] })
  send_byte v s := (UINT8_SIZE, { s with trace := s.trace ++ [WriteEvent.byte v] })
  send_str str s := (str.utf8ByteSize + 1, { s with trace := s.trace ++ [WriteEvent.str str] })

/-- A codec like `spec_codec` but whose uint writes report `cu` bytes
each, byte writes `cb`, string writes `cs` (used to exercise the
byte-count verification paths). -/
def counted_codec (cu cb cs : Nat) : DebuggerClient CodecState where
  get_next_request_id s := (s.next_id, { s with next_id := s.next_id + 1 })
  send_uint v s := (cu, { s with trace := s.trace ++ [WriteEvent.uint v] })
  send_byte v s := (cb, { s with trace := s.trace ++ [WriteEvent.byte v] })
  send_str str s := (cs, { s with trace := s.trace ++ [WriteEvent.str str] })

/-- A sample `__main__` environment whose `gMain.gDebugLevel` is 0. -/
def sampleEnv : MainModule := { gMain := Option.some { gDebugLevel := 0 } }

/-- The Variables request built from `sampleEnv` with both indices 0, no
path and `get_child_keys = False`. -/
def varsReqEmpty : DebuggerRequest_Variables :=
  { base := { _debug := 0, cmd_code := CmdCode.VARIABLES,
              request_id := Option.none, caller_data := CallerData.none }
    get_child_keys := false
    thread_index := 0
    stack_index := 0
    variable_path := []
    _request_size := 25 }

/-- The Stacktrace request built from `sampleEnv` with thread index `-1`. -/
def stacktraceNeg : DebuggerRequest_Stacktrace :=
  { base := { _debug := 0, cmd_code := CmdCode.STACKTRACE,
              request_id := Option.none, caller_data := CallerData.none }
    _request_size := 16
    thread_index := -1 }

/-! ## Helper lemmas -/

theorem variablePathBytes_foldl (path : List String) : ∀ acc : Nat,
    path.foldl (fun acc e => acc + (e.utf8ByteSize + 1)) acc
      = acc + (path.map (fun e => e.utf8ByteSize + 1)).sum := by
  induction path with
  | nil => intro acc; simp
  | cons x xs ih =>
    intro acc
    simp [List.foldl_cons, ih, Nat.add_assoc]

theorem variablePathBytes_eq_sum (path : List String) :
    variablePathBytes path = (path.map (fun e => e.utf8ByteSize + 1)).sum := by
  simpa [variablePathBytes] using variablePathBytes_foldl path 0

/-- Shape of a successful Variables construction: unpacks the `Option`
plumbing of `DebuggerRequest_Variables.init`. -/
theorem variables_init_some {env : MainModule} {ti si : Int}
    {vp : Option (List String)} {gck : Bool} {cd : CallerData}
    {r : DebuggerRequest_Variables}
    (h : DebuggerRequest_Variables.init env ti si vp gck cd = Option.some r) :
    r.variable_path = vp.getD []
      ∧ r._request_size =
          NO_PARAMS_REQUEST_SIZE + UINT8_SIZE + 3 * UINT32_SIZE
            + variablePathBytes (vp.getD []) := by
  unfold DebuggerRequest_Variables.init DebuggerRequest.init at h
  cases henv : env.gMain with
  | none => rw [henv] at h; exact absurd h (by simp)
  | some g =>
    rw [henv] at h
    simp only [] at h
    split at h
    · cases vp with
      | none =>
        simp only [Option.some.injEq] at h
        subst h
        exact ⟨rfl, rfl⟩
      | some p =>
        simp only [Option.some.injEq] at h
        subst h
        exact ⟨rfl, rfl⟩
    · exact absurd h (by simp)

/-- C2: declared wire size of a Variables request. -/
theorem variables_declared_size (env : MainModule)
    (thread_index stack_index : Int) (variable_path : Option (List String))
    (get_child_keys : Bool) (caller_data : CallerData)
    (r : DebuggerRequest_Variables)
    (h : DebuggerRequest_Variables.init env thread_index stack_index
        variable_path get_child_keys caller_data = Option.some r) :
    r._request_size =
      25 + ((variable_path.getD []).map (fun e => e.utf8ByteSize + 1)).sum := by
  have h2 := (variables_init_some h).2
  rw [h2, variablePathBytes_eq_sum]
  simp [NO_PARAMS_REQUEST_SIZE, UINT8_SIZE, UINT32_SIZE]

/-- The Variables request built from `sampleEnv` with indices 1 and 2, the
multi-byte UTF-8 path `["α", "βγ"]` and `get_child_keys = True`. -/
def varsReqGreek : DebuggerRequest_Variables :=
  { base := { _debug := 0, cmd_code := CmdCode.VARIABLES,
              request_id := Option.none, caller_data := CallerData.none }
    get_child_keys := true
    thread_index := 1
    stack_index := 2
    variable_path := ["α", "βγ"]
    _request_size := 33 }

/-- Witness for C2 at the multi-byte path `["α", "βγ"]` (UTF-8 lengths 2
and 4, so size 25 + 3 + 5 = 33). -/
theorem variables_declared_size_witness :
    (DebuggerRequest_Variables.init sampleEnv 1 2 (Option.some ["α", "βγ"])
        true CallerData.none = Option.some varsReqGreek)
    ∧ varsReqGreek._request_size
        = 25 + (((Option.some ["α", "βγ"] : Option (List String)).getD []).map
            (fun e => e.utf8ByteSize + 1)).sum :=
  ⟨by decide,
    variables_declared_size sampleEnv 1 2 (Option.some ["α", "βγ"]) true
      CallerData.none varsReqGreek (by decide)⟩

/-- C3 counterexample: the Variables request constructed with an empty path
has computed size 25, which differs from
`NO_PARAMS_REQUEST_SIZE + 9 + Σ = 21` as the claim would have it. -/
theorem variables_size_not_header_plus_9 :
    (DebuggerRequest_Variables.init sampleEnv 0 0 Option.none false
        CallerData.none = Option.some varsReqEmpty)
    ∧ ¬ (varsReqEmpty._request_size
          = NO_PARAMS_REQUEST_SIZE + 9
            + (varsReqEmpty.variable_path.map
                (fun e => e.utf8ByteSize + 1)).sum) := by
  decide

/-- C3 amended: for the Variables variant the computed size equals the
12-byte header size plus 13 (not 9) plus the sum over segments of UTF-8
byte length + 1, for every path list including the empty one. -/
theorem variables_size_header_plus_13 (env : MainModule)
    (thread_index stack_index : Int) (variable_path : Option (List String))
    (get_child_keys : Bool) (caller_data : CallerData)
    (r : DebuggerRequest_Variables)
    (h : DebuggerRequest_Variables.init env thread_index stack_index
        variable_path get_child_keys caller_data = Option.some r) :
    r._request_size =
      NO_PARAMS_REQUEST_SIZE + 13
        + ((variable_path.getD []).map (fun e => e.utf8ByteSize + 1)).sum := by
  have h2 := (variables_init_some h).2
  rw [h2, variablePathBytes_eq_sum]
  simp [NO_PARAMS_REQUEST_SIZE, UINT8_SIZE, UINT32_SIZE]

/-- Witness for the amended C3 at the empty path: size 12 + 13 + 0 = 25. -/
theorem variables_size_header_plus_13_witness :
    (DebuggerRequest_Variables.init sampleEnv 0 0 Option.none false
        CallerData.none = Option.some varsReqEmpty)
    ∧ varsReqEmpty._request_size
        = NO_PARAMS_REQUEST_SIZE + 13
          + (((Option.none : Option (List String)).getD []).map
              (fun e => e.utf8ByteSize + 1)).sum :=
  ⟨by decide,
    variables_size_header_plus_13 sampleEnv 0 0 Option.none false
      CallerData.none varsReqEmpty (by decide)⟩

/-- C5 counterexample: constructing a Stacktrace request with thread index
`-1` succeeds (the source performs no validation), contradicting the claim
that it is rejected at construction time. -/
theorem stacktrace_accepts_negative_index :
    (DebuggerRequest_Stacktrace.init sampleEnv (-1) CallerData.none
        = Option.some stacktraceNeg)
    ∧ stacktraceNeg.thread_index < 0 := by
  decide

/-- C5 amended: a Variables request with a negative thread index is
rejected at construction (for every environment), while a Stacktrace
request stores any thread index unchecked: whenever the `gMain` global
resolves, its construction succeeds, negative thread index included. -/
theorem negative_thread_index_validation :
    (∀ (env : MainModule) (ti si : Int) (vp : Option (List String))
        (gck : Bool) (cd : CallerData), ti < 0 →
      DebuggerRequest_Variables.init env ti si vp gck cd = Option.none)
    ∧ (∀ (g : GMainObj) (ti : Int) (cd : CallerData),
        (DebuggerRequest_Stacktrace.init { gMain := Option.some g } ti
            cd).isSome = true) := by
  constructor
  · intro env ti si vp gck cd hti
    unfold DebuggerRequest_Variables.init DebuggerRequest.init
    cases env.gMain with
    | none => rfl
    | some g =>
      simp only []
      split
      · next hcond => exact absurd hcond.1 (by omega)
      · rfl
  · intro g ti cd
    rfl

/-- Witness for the amended C5: thread index `-1` is rejected by the
Variables constructor, and accepted by the Stacktrace constructor. -/
theorem negative_thread_index_validation_witness :
    (DebuggerRequest_Variables.init sampleEnv (-1) 0 Option.none false
        CallerData.none = Option.none)
    ∧ (DebuggerRequest_Stacktrace.init
        { gMain := Option.some { gDebugLevel := 0 } } (-1)
        CallerData.none).isSome = true :=
  ⟨negative_thread_index_validation.1 sampleEnv (-1) 0 Option.none false
      CallerData.none (by decide),
    negative_thread_index_validation.2 { gDebugLevel := 0 } (-1)
      CallerData.none⟩

/-- C6: constructing a Step request with a step-kind argument that is not a
member of the `StepType` enumeration is rejected (the constructor performs
no codec write at all). -/
theorem step_rejects_non_steptype (env : MainModule) (thread_index : Int)
    (v : Int) :
    DebuggerRequest_Step.init env thread_index (StepArg.other v)
      = Option.none :=
  rfl

/-! ## Traces produced by sends through the contractual codec -/

/-- The three header writes performed by `_send_base_fields`. -/
def baseDelta (packet_size : Nat) (rid : Nat) (cmd : CmdCode) :
    List WriteEvent :=
  [WriteEvent.uint (packet_size : Int), WriteEvent.uint (rid : Int),
   WriteEvent.uint (cmd.value : Int)]

/-- All writes of a Stacktrace send. -/
def stacktraceDelta (r : DebuggerRequest_Stacktrace) (rid : Nat) :
    List WriteEvent :=
  baseDelta r._request_size rid r.base.cmd_code
    ++ [WriteEvent.uint r.thread_index]

/-- All writes of a Step send. -/
def stepDelta (r : DebuggerRequest_Step) (rid : Nat) : List WriteEvent :=
  baseDelta r._request_size rid r.base.cmd_code
    ++ [WriteEvent.uint r.thread_index, WriteEvent.byte r.step_type.value]

/-- All writes of a Variables send. -/
def variablesDelta (r : DebuggerRequest_Variables) (rid : Nat) :
    List WriteEvent :=
  baseDelta r._request_size rid r.base.cmd_code
    ++ [WriteEvent.byte (variablesFlags r.get_child_keys),
        WriteEvent.uint r.thread_index,
        WriteEvent.uint r.stack_index,
        WriteEvent.uint (r.variable_path.length : Int)]
    ++ r.variable_path.map WriteEvent.str

theorem traceBytes_append (l1 l2 : List WriteEvent) :
    traceBytes (l1 ++ l2) = traceBytes l1 + traceBytes l2 := by
  simp [traceBytes]

theorem traceBytes_map_str (path : List String) :
    traceBytes (path.map WriteEvent.str) = variablePathBytes path := by
  rw [variablePathBytes_eq_sum]
  unfold traceBytes
  rw [List.map_map]
  rfl

theorem send_base_fields_spec (req : DebuggerRequest) (ps : Nat)
    (s : CodecState) :
    _send_base_fields spec_codec req ps s =
      Except.ok (NO_PARAMS_REQUEST_SIZE,
        { req with request_id := Option.some s.next_id },
        { next_id := s.next_id + 1,
          trace := s.trace ++ baseDelta ps s.next_id req.cmd_code }) := by
  simp [_send_base_fields, spec_codec, __verify_num_written, baseDelta,
    NO_PARAMS_REQUEST_SIZE, UINT32_SIZE]

theorem noParams_send_spec (req : DebuggerRequest) (s : CodecState) :
    _DebuggerRequest_NoParams.send spec_codec req s =
      Except.ok (NO_PARAMS_REQUEST_SIZE,
        { req with request_id := Option.some s.next_id },
        { next_id := s.next_id + 1,
          trace := s.trace
            ++ baseDelta NO_PARAMS_REQUEST_SIZE s.next_id req.cmd_code }) := by
  simp [_DebuggerRequest_NoParams.send, send_base_fields_spec]

theorem stacktrace_send_spec (r : DebuggerRequest_Stacktrace)
    (s : CodecState) :
    DebuggerRequest_Stacktrace.send spec_codec r s =
      Except.ok
        ({ r with base := { r.base with request_id := Option.some s.next_id } },
          { next_id := s.next_id + 1,
            trace := s.trace ++ stacktraceDelta r s.next_id }) := by
  unfold DebuggerRequest_Stacktrace.send
  rw [send_base_fields_spec]
  simp [spec_codec, stacktraceDelta, baseDelta]

theorem step_send_spec (r : DebuggerRequest_Step) (s : CodecState) :
    DebuggerRequest_Step.send spec_codec r s =
      Except.ok
        ({ r with base := { r.base with request_id := Option.some s.next_id } },
          { next_id := s.next_id + 1,
            trace := s.trace ++ stepDelta r s.next_id }) := by
  unfold DebuggerRequest_Step.send
  rw [send_base_fields_spec]
  simp [spec_codec, stepDelta, baseDelta]

theorem sendVariablePath_spec (path : List String) : ∀ s : CodecState,
    sendVariablePath spec_codec path s =
      { next_id := s.next_id, trace := s.trace ++ path.map WriteEvent.str } := by
  induction path with
  | nil => intro s; simp [sendVariablePath]
  | cons x xs ih =>
    intro s
    have hstep : sendVariablePath spec_codec (x :: xs) s
        = sendVariablePath spec_codec xs
            { s with trace := s.trace ++ [WriteEvent.str x] } := rfl
    rw [hstep, ih]
    simp

theorem variables_send_spec (r : DebuggerRequest_Variables)
    (s : CodecState) :
    DebuggerRequest_Variables.send spec_codec r s =
      Except.ok
        ({ r with base := { r.base with request_id := Option.some s.next_id } },
          { next_id := s.next_id + 1,
            trace := s.trace ++ variablesDelta r s.next_id }) := by
  unfold DebuggerRequest_Variables.send
  rw [send_base_fields_spec]
  simp only [sendVariablePath_spec]
  simp [spec_codec, sendVariablePath_spec, variablesDelta, baseDelta]

/-- A successful Stacktrace construction stores size
`NO_PARAMS_REQUEST_SIZE + UINT32_SIZE`. -/
theorem stacktrace_init_size {env : MainModule} {ti : Int} {cd : CallerData}
    {r : DebuggerRequest_Stacktrace}
    (h : DebuggerRequest_Stacktrace.init env ti cd = Option.some r) :
    r._request_size = NO_PARAMS_REQUEST_SIZE + UINT32_SIZE := by
  unfold DebuggerRequest_Stacktrace.init DebuggerRequest.init at h
  cases henv : env.gMain with
  | none => rw [henv] at h; exact absurd h (by simp)
  | some g =>
    rw [henv] at h
    simp only [Option.some.injEq] at h
    subst h
    rfl

/-- A successful Step construction stores size
`NO_PARAMS_REQUEST_SIZE + UINT32_SIZE + UINT8_SIZE`. -/
theorem step_init_size {env : MainModule} {ti : Int} {sa : StepArg}
    {r : DebuggerRequest_Step}
    (h : DebuggerRequest_Step.init env ti sa = Option.some r) :
    r._request_size = NO_PARAMS_REQUEST_SIZE + UINT32_SIZE + UINT8_SIZE := by
  unfold DebuggerRequest_Step.init DebuggerRequest.init at h
  cases sa with
  | other v => exact absurd h (by simp)
  | stepType t =>
    cases henv : env.gMain with
    | none => rw [henv] at h; exact absurd h (by simp)
    | some g =>
      rw [henv] at h
      simp only [Option.some.injEq] at h
      subst h
      rfl

/-- The Stacktrace request built from `sampleEnv` with thread index 3. -/
def stReq3 : DebuggerRequest_Stacktrace :=
  { base := { _debug := 0, cmd_code := CmdCode.STACKTRACE,
              request_id := Option.none, caller_data := CallerData.none }
    _request_size := 16
    thread_index := 3 }

/-- The Step request built from `sampleEnv` with thread index 2 and step
type `OVER`. -/
def stepOverReq : DebuggerRequest_Step :=
  { base := { _debug := 0, cmd_code := CmdCode.STEP,
              request_id := Option.none, caller_data := CallerData.none }
    thread_index := 2
    step_type := StepType.OVER
    _request_size := 17 }

/-- C1: for every request variant, under the contractual byte counts of
`spec_codec` (4 per uint32, 1 per byte, UTF-8 length + 1 per string), the
value passed as the packet-size field (the first `uint` event of each
delta, `r._request_size` resp. `NO_PARAMS_REQUEST_SIZE`) equals the total
number of bytes written during that send, header included. -/
theorem packet_size_equals_bytes_sent :
    (∀ (r : DebuggerRequest) (s : CodecState),
      _DebuggerRequest_NoParams.send spec_codec r s =
          Except.ok (NO_PARAMS_REQUEST_SIZE,
            { r with request_id := Option.some s.next_id },
            { next_id := s.next_id + 1,
              trace := s.trace
                ++ baseDelta NO_PARAMS_REQUEST_SIZE s.next_id r.cmd_code })
        ∧ traceBytes (baseDelta NO_PARAMS_REQUEST_SIZE s.next_id r.cmd_code)
            = NO_PARAMS_REQUEST_SIZE)
    ∧ (∀ (env : MainModule) (ti : Int) (cd : CallerData)
          (r : DebuggerRequest_Stacktrace),
        DebuggerRequest_Stacktrace.init env ti cd = Option.some r →
        ∀ s : CodecState,
          DebuggerRequest_Stacktrace.send spec_codec r s =
              Except.ok
                ({ r with
                    base := { r.base with request_id := Option.some s.next_id } },
                  { next_id := s.next_id + 1,
                    trace := s.trace ++ stacktraceDelta r s.next_id })
            ∧ traceBytes (stacktraceDelta r s.next_id) = r._request_size)
    ∧ (∀ (env : MainModule) (ti : Int) (sa : StepArg)
          (r : DebuggerRequest_Step),
        DebuggerRequest_Step.init env ti sa = Option.some r →
        ∀ s : CodecState,
          DebuggerRequest_Step.send spec_codec r s =
              Except.ok
                ({ r with
                    base := { r.base with request_id := Option.some s.next_id } },
                  { next_id := s.next_id + 1,
                    trace := s.trace ++ stepDelta r s.next_id })
            ∧ traceBytes (stepDelta r s.next_id) = r._request_size)
    ∧ (∀ (env : MainModule) (ti si : Int) (vp : Option (List String))
          (gck : Bool) (cd : CallerData) (r : DebuggerRequest_Variables),
        DebuggerRequest_Variables.init env ti si vp gck cd = Option.some r →
        ∀ s : CodecState,
          DebuggerRequest_Variables.send spec_codec r s =
              Except.ok
                ({ r with
                    base := { r.base with request_id := Option.some s.next_id } },
                  { next_id := s.next_id + 1,
                    trace := s.trace ++ variablesDelta r s.next_id })
            ∧ traceBytes (variablesDelta r s.next_id) = r._request_size) := by
  refine ⟨?_, ?_, ?_, ?_⟩
  · intro r s
    refine ⟨noParams_send_spec r s, ?_⟩
    simp [traceBytes, baseDelta, WriteEvent.size, NO_PARAMS_REQUEST_SIZE,
      UINT32_SIZE]
  · intro env ti cd r h s
    refine ⟨stacktrace_send_spec r s, ?_⟩
    rw [stacktrace_init_size h]
    simp [traceBytes, stacktraceDelta, baseDelta, WriteEvent.size,
      NO_PARAMS_REQUEST_SIZE, UINT32_SIZE]
  · intro env ti sa r h s
    refine ⟨step_send_spec r s, ?_⟩
    rw [step_init_size h]
    simp [traceBytes, stepDelta, baseDelta, WriteEvent.size,
      NO_PARAMS_REQUEST_SIZE, UINT32_SIZE, UINT8_SIZE]
  · intro env ti si vp gck cd r h s
    refine ⟨variables_send_spec r s, ?_⟩
    obtain ⟨hpath, hsize⟩ := variables_init_some h
    have hvd : traceBytes (variablesDelta r s.next_id)
        = NO_PARAMS_REQUEST_SIZE + UINT8_SIZE + 3 * UINT32_SIZE
          + variablePathBytes r.variable_path := by
      simp only [variablesDelta, traceBytes_append, traceBytes_map_str]
      simp [traceBytes, baseDelta, WriteEvent.size, NO_PARAMS_REQUEST_SIZE,
        UINT8_SIZE, UINT32_SIZE]
    rw [hvd, hsize, hpath]

/-- Witness for C1 at concrete requests: Stacktrace(thread 3),
Step(thread 2, OVER) and Variables(1, 2, ["α", "βγ"], child keys). -/
theorem packet_size_equals_bytes_sent_witness :
    (DebuggerRequest_Stacktrace.send spec_codec stReq3
          { next_id := 0, trace := [] } =
        Except.ok
          ({ stReq3 with
              base := { stReq3.base with request_id := Option.some 0 } },
            { next_id := 1, trace := stacktraceDelta stReq3 0 })
      ∧ traceBytes (stacktraceDelta stReq3 0) = stReq3._request_size)
    ∧ (DebuggerRequest_Step.send spec_codec stepOverReq
          { next_id := 0, trace := [] } =
        Except.ok
          ({ stepOverReq with
              base := { stepOverReq.base with request_id := Option.some 0 } },
            { next_id := 1, trace := stepDelta stepOverReq 0 })
      ∧ traceBytes (stepDelta stepOverReq 0) = stepOverReq._request_size)
    ∧ (DebuggerRequest_Variables.send spec_codec varsReqGreek
          { next_id := 0, trace := [] } =
        Except.ok
          ({ varsReqGreek with
              base := { varsReqGreek.base with request_id := Option.some 0 } },
            { next_id := 1, trace := variablesDelta varsReqGreek 0 })
      ∧ traceBytes (variablesDelta varsReqGreek 0)
          = varsReqGreek._request_size) :=
  ⟨packet_size_equals_bytes_sent.2.1 sampleEnv 3 CallerData.none stReq3
      (by decide) { next_id := 0, trace := [] },
    packet_size_equals_bytes_sent.2.2.1 sampleEnv 2
      (StepArg.stepType StepType.OVER) stepOverReq (by decide)
      { next_id := 0, trace := [] },
    packet_size_equals_bytes_sent.2.2.2 sampleEnv 1 2
      (Option.some ["α", "βγ"]) true CallerData.none varsReqGreek (by decide)
      { next_id := 0, trace := [] }⟩

/-- C7: a Variables send writes, in order: the 12-byte header (packet size,
request id, command code as uint32s), one flags byte whose bit 0 is set iff
child keys were requested and whose other bits are all zero, the thread
index, the stack index, the path segment count (the length of the stored,
normalized path list) as uint32s, and then each path segment through the
string codec in list order. -/
theorem variables_send_field_order (r : DebuggerRequest_Variables)
    (s : CodecState) :
    DebuggerRequest_Variables.send spec_codec r s =
        Except.ok
          ({ r with base := { r.base with request_id := Option.some s.next_id } },
            { next_id := s.next_id + 1,
              trace := s.trace
                ++ [WriteEvent.uint (r._request_size : Int),
                    WriteEvent.uint (s.next_id : Int),
                    WriteEvent.uint (r.base.cmd_code.value : Int),
                    WriteEvent.byte (variablesFlags r.get_child_keys),
                    WriteEvent.uint r.thread_index,
                    WriteEvent.uint r.stack_index,
                    WriteEvent.uint (r.variable_path.length : Int)]
                ++ r.variable_path.map WriteEvent.str })
      ∧ ∀ i : Nat,
          (variablesFlags r.get_child_keys).testBit i
            = (decide (i = 0) && r.get_child_keys) := by
  constructor
  · rw [variables_send_spec]
    simp [variablesDelta, baseDelta]
  · intro i
    cases hgck : r.get_child_keys with
    | false => simp [variablesFlags, Nat.zero_testBit]
    | true =>
      cases i with
      | zero => decide
      | succ n =>
        simp [variablesFlags, GET_CHILD_KEYS, Nat.testBit_succ,
          Nat.zero_testBit]

/-- A plain base request used to exercise `_send_base_fields`. -/
def baseReqStop : DebuggerRequest :=
  { _debug := 0, cmd_code := CmdCode.STOP, request_id := Option.none,
    caller_data := CallerData.none }

/-- C4: the shared header routine queries the codec's next-identifier
source exactly once (the counter advances by exactly 1) and stores the
result as the request's identifier, writes packet size, request identifier
and command code as uint32s in that order, then checks the accumulated
byte count: when it is 12 the routine returns 12 with the identifier
populated, otherwise it raises (returns the `AssertionError` message)
instead of continuing. -/
theorem send_base_fields_verifies_count (cu cb cs : Nat)
    (req : DebuggerRequest) (packet_size : Nat) (s : CodecState) :
    (0 + cu + cu + cu = NO_PARAMS_REQUEST_SIZE →
      _send_base_fields (counted_codec cu cb cs) req packet_size s =
        Except.ok (NO_PARAMS_REQUEST_SIZE,
          { req with request_id := Option.some s.next_id },
          { next_id := s.next_id + 1,
            trace := s.trace ++ baseDelta packet_size s.next_id req.cmd_code }))
    ∧ (0 + cu + cu + cu ≠ NO_PARAMS_REQUEST_SIZE →
      _send_base_fields (counted_codec cu cb cs) req packet_size s =
        Except.error ("INTERNAL ERROR: bad size written expected="
          ++ toString NO_PARAMS_REQUEST_SIZE ++ ",actual="
          ++ toString (0 + cu + cu + cu))) := by
  constructor
  · intro h
    unfold _send_base_fields counted_codec __verify_num_written
    simp only []
    rw [if_pos h.symm, h]
    simp [baseDelta]
  · intro h
    unfold _send_base_fields counted_codec __verify_num_written
    simp only []
    rw [if_neg (fun hc => h hc.symm)]

/-- Witness for C4: with contractual 4-byte uint writes the routine
returns 12 and assigns request id 0; with faulty 5-byte uint writes it
raises the `AssertionError` message. -/
theorem send_base_fields_verifies_count_witness :
    (_send_base_fields (counted_codec 4 1 1) baseReqStop 12
        { next_id := 0, trace := [] } =
      Except.ok (NO_PARAMS_REQUEST_SIZE,
        { baseReqStop with request_id := Option.some 0 },
        { next_id := 1, trace := baseDelta 12 0 CmdCode.STOP }))
    ∧ (_send_base_fields (counted_codec 5 1 1) baseReqStop 12
        { next_id := 0, trace := [] } =
      Except.error ("INTERNAL ERROR: bad size written expected="
        ++ toString NO_PARAMS_REQUEST_SIZE ++ ",actual="
        ++ toString (0 + 5 + 5 + 5))) :=
  ⟨(send_base_fields_verifies_count 4 1 1 baseReqStop 12
      { next_id := 0, trace := [] }).1 (by decide),
    (send_base_fields_verifies_count 5 1 1 baseReqStop 12
      { next_id := 0, trace := [] }).2 (by decide)⟩

/-- Shape of a successful `_send_base_fields` over any codec: the returned
request is the input request with only `request_id` overwritten by the
value obtained from the codec's next-identifier source. -/
theorem send_base_fields_ok_shape {σ : Type} (dc : DebuggerClient σ)
    (req : DebuggerRequest) (ps : Nat) (s : σ) (n : Nat)
    (req' : DebuggerRequest) (s' : σ)
    (h : _send_base_fields dc req ps s = Except.ok (n, req', s')) :
    req' = { req with
      request_id := Option.some (dc.get_next_request_id s).1 } := by
  unfold _send_base_fields at h
  simp only [] at h
  split at h
  · simp at h
  · simp only [Except.ok.injEq, Prod.mk.injEq] at h
    exact h.2.1.symm

/-- C9: for every variant, a successful send changes only the
request-identifier field: command code, caller data, debug level and all
variant-specific fields (thread index, stack index, step type, path list,
child-keys flag, declared size) are unchanged. -/
theorem send_mutates_only_request_id :
    (∀ (σ : Type) (dc : DebuggerClient σ) (r : DebuggerRequest) (s : σ)
        (n : Nat) (r' : DebuggerRequest) (s' : σ),
      _DebuggerRequest_NoParams.send dc r s = Except.ok (n, r', s') →
        r'.cmd_code = r.cmd_code ∧ r'.caller_data = r.caller_data
          ∧ r'._debug = r._debug)
    ∧ (∀ (σ : Type) (dc : DebuggerClient σ) (r : DebuggerRequest_Stacktrace)
          (s : σ) (r' : DebuggerRequest_Stacktrace) (s' : σ),
        DebuggerRequest_Stacktrace.send dc r s = Except.ok (r', s') →
          r'.base.cmd_code = r.base.cmd_code
            ∧ r'.base.caller_data = r.base.caller_data
            ∧ r'.base._debug = r.base._debug
            ∧ r'.thread_index = r.thread_index
            ∧ r'._request_size = r._request_size)
    ∧ (∀ (σ : Type) (dc : DebuggerClient σ) (r : DebuggerRequest_Step)
          (s : σ) (r' : DebuggerRequest_Step) (s' : σ),
        DebuggerRequest_Step.send dc r s = Except.ok (r', s') →
          r'.base.cmd_code = r.base.cmd_code
            ∧ r'.base.caller_data = r.base.caller_data
            ∧ r'.base._debug = r.base._debug
            ∧ r'.thread_index = r.thread_index
            ∧ r'.step_type = r.step_type
            ∧ r'._request_size = r._request_size)
    ∧ (∀ (σ : Type) (dc : DebuggerClient σ) (r : DebuggerRequest_Variables)
          (s : σ) (r' : DebuggerRequest_Variables) (s' : σ),
        DebuggerRequest_Variables.send dc r s = Except.ok (r', s') →
          r'.base.cmd_code = r.base.cmd_code
            ∧ r'.base.caller_data = r.base.caller_data
            ∧ r'.base._debug = r.base._debug
            ∧ r'.thread_index = r.thread_index
            ∧ r'.stack_index = r.stack_index
            ∧ r'.variable_path = r.variable_path
            ∧ r'.get_child_keys = r.get_child_keys
            ∧ r'._request_size = r._request_size) := by
  refine ⟨?_, ?_, ?_, ?_⟩
  · intro σ dc r s n r' s' h
    have hb := send_base_fields_ok_shape dc r NO_PARAMS_REQUEST_SIZE s n r' s' h
    subst hb
    exact ⟨rfl, rfl, rfl⟩
  · intro σ dc r s r' s' h
    unfold DebuggerRequest_Stacktrace.send at h
    split at h
    · simp at h
    · rename_i n1 base1 s1 heq
      simp only [Except.ok.injEq, Prod.mk.injEq] at h
      have hb := send_base_fields_ok_shape dc r.base r._request_size s
        n1 base1 s1 heq
      rw [← h.1, hb]
      exact ⟨rfl, rfl, rfl, rfl, rfl⟩
  · intro σ dc r s r' s' h
    unfold DebuggerRequest_Step.send at h
    split at h
    · simp at h
    · rename_i n1 base1 s1 heq
      simp only [Except.ok.injEq, Prod.mk.injEq] at h
      have hb := send_base_fields_ok_shape dc r.base r._request_size s
        n1 base1 s1 heq
      rw [← h.1, hb]
      exact ⟨rfl, rfl, rfl, rfl, rfl, rfl⟩
  · intro σ dc r s r' s' h
    unfold DebuggerRequest_Variables.send at h
    split at h
    · simp at h
    · rename_i n1 base1 s1 heq
      simp only [Except.ok.injEq, Prod.mk.injEq] at h
      have hb := send_base_fields_ok_shape dc r.base r._request_size s
        n1 base1 s1 heq
      rw [← h.1, hb]
      exact ⟨rfl, rfl, rfl, rfl, rfl, rfl, rfl, rfl⟩

/-- Witness for C9: concrete sends of all four variants through the
contractual codec leave every field except the request identifier
unchanged. -/
theorem send_mutates_only_request_id_witness :
    (({ baseReqStop with request_id := Option.some 0 }).cmd_code
          = baseReqStop.cmd_code
      ∧ ({ baseReqStop with request_id := Option.some 0 }).caller_data
          = baseReqStop.caller_data
      ∧ ({ baseReqStop with request_id := Option.some 0 })._debug
          = baseReqStop._debug)
    ∧ (({ stReq3 with
            base := { stReq3.base with request_id := Option.some 0 } }).base.cmd_code
          = stReq3.base.cmd_code
      ∧ ({ stReq3 with
            base := { stReq3.base with request_id := Option.some 0 } }).base.caller_data
          = stReq3.base.caller_data
      ∧ ({ stReq3 with
            base := { stReq3.base with request_id := Option.some 0 } }).base._debug
          = stReq3.base._debug
      ∧ ({ stReq3 with
            base := { stReq3.base with request_id := Option.some 0 } }).thread_index
          = stReq3.thread_index
      ∧ ({ stReq3 with
            base := { stReq3.base with request_id := Option.some 0 } })._request_size
          = stReq3._request_size)
    ∧ (({ stepOverReq with
            base := { stepOverReq.base with request_id := Option.some 0 } }).base.cmd_code
          = stepOverReq.base.cmd_code
      ∧ ({ stepOverReq with
            base := { stepOverReq.base with request_id := Option.some 0 } }).base.caller_data
          = stepOverReq.base.caller_data
      ∧ ({ stepOverReq with
            base := { stepOverReq.base with request_id := Option.some 0 } }).base._debug
          = stepOverReq.base._debug
      ∧ ({ stepOverReq with
            base := { stepOverReq.base with request_id := Option.some 0 } }).thread_index
          = stepOverReq.thread_index
      ∧ ({ stepOverReq with
            base := { stepOverReq.base with request_id := Option.some 0 } }).step_type
          = stepOverReq.step_type
      ∧ ({ stepOverReq with
            base := { stepOverReq.base with request_id := Option.some 0 } })._request_size
          = stepOverReq._request_size)
    ∧ (({ varsReqGreek with
            base := { varsReqGreek.base with request_id := Option.some 0 } }).base.cmd_code
          = varsReqGreek.base.cmd_code
      ∧ ({ varsReqGreek with
            base := { varsReqGreek.base with request_id := Option.some 0 } }).base.caller_data
          = varsReqGreek.base.caller_data
      ∧ ({ varsReqGreek with
            base := { varsReqGreek.base with request_id := Option.some 0 } }).base._debug
          = varsReqGreek.base._debug
      ∧ ({ varsReqGreek with
            base := { varsReqGreek.base with request_id := Option.some 0 } }).thread_index
          = varsReqGreek.thread_index
      ∧ ({ varsReqGreek with
            base := { varsReqGreek.base with request_id := Option.some 0 } }).stack_index
          = varsReqGreek.stack_index
      ∧ ({ varsReqGreek with
            base := { varsReqGreek.base with request_id := Option.some 0 } }).variable_path
          = varsReqGreek.variable_path
      ∧ ({ varsReqGreek with
            base := { varsReqGreek.base with request_id := Option.some 0 } }).get_child_keys
          = varsReqGreek.get_child_keys
      ∧ ({ varsReqGreek with
            base := { varsReqGreek.base with request_id := Option.some 0 } })._request_size
          = varsReqGreek._request_size) :=
  ⟨send_mutates_only_request_id.1 CodecState spec_codec baseReqStop
      { next_id := 0, trace := [] } _ _ _
      (noParams_send_spec baseReqStop { next_id := 0, trace := [] }),
    send_mutates_only_request_id.2.1 CodecState spec_codec stReq3
      { next_id := 0, trace := [] } _ _
      (stacktrace_send_spec stReq3 { next_id := 0, trace := [] }),
    send_mutates_only_request_id.2.2.1 CodecState spec_codec stepOverReq
      { next_id := 0, trace := [] } _ _
      (step_send_spec stepOverReq { next_id := 0, trace := [] }),
    send_mutates_only_request_id.2.2.2 CodecState spec_codec varsReqGreek
      { next_id := 0, trace := [] } _ _
      (variables_send_spec varsReqGreek { next_id := 0, trace := [] })⟩

/-- A `gMain` object with a negative debug level. -/
def gNeg : GMainObj := { gDebugLevel := -3 }

/-- The base fields produced by a constructor run against `gNeg`. -/
def baseDebugNeg (cmd : CmdCode) (cd : CallerData) : DebuggerRequest :=
  { _debug := max gNeg.gDebugLevel 0, cmd_code := cmd,
    request_id := Option.none, caller_data := cd }

def stDebugNeg : DebuggerRequest_Stacktrace :=
  { base := baseDebugNeg CmdCode.STACKTRACE CallerData.none
    _request_size := 16
    thread_index := 0 }

def stepDebugNeg : DebuggerRequest_Step :=
  { base := baseDebugNeg CmdCode.STEP CallerData.none
    thread_index := 0
    step_type := StepType.LINE
    _request_size := 17 }

def varsDebugNeg : DebuggerRequest_Variables :=
  { base := baseDebugNeg CmdCode.VARIABLES CallerData.none
    get_child_keys := false
    thread_index := 0
    stack_index := 0
    variable_path := []
    _request_size := 25 }

/-- C10: every constructor dereferences `__main__.gMain` and reads its
`gDebugLevel`: when `gMain` is absent, construction fails for every
variant; when it is present, the stored debug level equals
`max(gDebugLevel, 0)` and is therefore non-negative. -/
theorem constructors_require_gMain :
    ((DebuggerRequest_Stop.init { gMain := Option.none } = Option.none)
      ∧ (DebuggerRequest_Continue.init { gMain := Option.none }
          = Option.none)
      ∧ (DebuggerRequest_ExitChannel.init { gMain := Option.none }
          = Option.none)
      ∧ (∀ cd, DebuggerRequest_Threads.init { gMain := Option.none } cd
          = Option.none)
      ∧ (∀ ti cd, DebuggerRequest_Stacktrace.init { gMain := Option.none }
          ti cd = Option.none)
      ∧ (∀ ti sa, DebuggerRequest_Step.init { gMain := Option.none } ti sa
          = Option.none)
      ∧ (∀ ti si vp gck cd,
          DebuggerRequest_Variables.init { gMain := Option.none } ti si vp
            gck cd = Option.none))
    ∧ (∀ g : GMainObj,
        (∀ r, DebuggerRequest_Stop.init { gMain := Option.some g }
            = Option.some r →
          r._debug = max g.gDebugLevel 0 ∧ 0 ≤ r._debug)
        ∧ (∀ r, DebuggerRequest_Continue.init { gMain := Option.some g }
            = Option.some r →
          r._debug = max g.gDebugLevel 0 ∧ 0 ≤ r._debug)
        ∧ (∀ r, DebuggerRequest_ExitChannel.init { gMain := Option.some g }
            = Option.some r →
          r._debug = max g.gDebugLevel 0 ∧ 0 ≤ r._debug)
        ∧ (∀ cd r, DebuggerRequest_Threads.init { gMain := Option.some g }
            cd = Option.some r →
          r._debug = max g.gDebugLevel 0 ∧ 0 ≤ r._debug)
        ∧ (∀ ti cd r,
            DebuggerRequest_Stacktrace.init { gMain := Option.some g } ti cd
              = Option.some r →
          r.base._debug = max g.gDebugLevel 0 ∧ 0 ≤ r.base._debug)
        ∧ (∀ ti sa r,
            DebuggerRequest_Step.init { gMain := Option.some g } ti sa
              = Option.some r →
          r.base._debug = max g.gDebugLevel 0 ∧ 0 ≤ r.base._debug)
        ∧ (∀ ti si vp gck cd r,
            DebuggerRequest_Variables.init { gMain := Option.some g } ti si
              vp gck cd = Option.some r →
          r.base._debug = max g.gDebugLevel 0 ∧ 0 ≤ r.base._debug)) := by
  constructor
  · refine ⟨rfl, rfl, rfl, fun cd => rfl, fun ti cd => rfl, ?_, ?_⟩
    · intro ti sa
      cases sa with
      | stepType t => rfl
      | other v => rfl
    · intro ti si vp gck cd
      rfl
  · intro g
    refine ⟨?_, ?_, ?_, ?_, ?_, ?_, ?_⟩
    · intro r h
      simp only [DebuggerRequest_Stop.init, DebuggerRequest.init,
        Option.some.injEq] at h
      subst h
      exact ⟨rfl, le_max_right _ _⟩
    · intro r h
      simp only [DebuggerRequest_Continue.init, DebuggerRequest.init,
        Option.some.injEq] at h
      subst h
      exact ⟨rfl, le_max_right _ _⟩
    · intro r h
      simp only [DebuggerRequest_ExitChannel.init, DebuggerRequest.init,
        Option.some.injEq] at h
      subst h
      exact ⟨rfl, le_max_right _ _⟩
    · intro cd r h
      simp only [DebuggerRequest_Threads.init, DebuggerRequest.init,
        Option.some.injEq] at h
      subst h
      exact ⟨rfl, le_max_right _ _⟩
    · intro ti cd r h
      simp only [DebuggerRequest_Stacktrace.init, DebuggerRequest.init,
        Option.some.injEq] at h
      subst h
      exact ⟨rfl, le_max_right _ _⟩
    · intro ti sa r h
      cases sa with
      | other v => simp [DebuggerRequest_Step.init] at h
      | stepType t =>
        simp only [DebuggerRequest_Step.init, DebuggerRequest.init,
          Option.some.injEq] at h
        subst h
        exact ⟨rfl, le_max_right _ _⟩
    · intro ti si vp gck cd r h
      simp only [DebuggerRequest_Variables.init, DebuggerRequest.init] at h
      split at h
      · simp only [Option.some.injEq] at h
        subst h
        exact ⟨rfl, le_max_right _ _⟩
      · simp at h

/-- Witness for C10: against a `gMain` with `gDebugLevel = -3`, each
constructor stores debug level `max(-3, 0) = 0 ≥ 0`. -/
theorem constructors_require_gMain_witness :
    ((baseDebugNeg CmdCode.STOP CallerData.none)._debug
        = max gNeg.gDebugLevel 0
      ∧ 0 ≤ (baseDebugNeg CmdCode.STOP CallerData.none)._debug)
    ∧ ((baseDebugNeg CmdCode.CONTINUE (CallerData.bool false))._debug
        = max gNeg.gDebugLevel 0
      ∧ 0 ≤ (baseDebugNeg CmdCode.CONTINUE (CallerData.bool false))._debug)
    ∧ ((baseDebugNeg CmdCode.EXIT_CHANNEL (CallerData.bool false))._debug
        = max gNeg.gDebugLevel 0
      ∧ 0 ≤ (baseDebugNeg CmdCode.EXIT_CHANNEL
          (CallerData.bool false))._debug)
    ∧ ((baseDebugNeg CmdCode.THREADS CallerData.none)._debug
        = max gNeg.gDebugLevel 0
      ∧ 0 ≤ (baseDebugNeg CmdCode.THREADS CallerData.none)._debug)
    ∧ (stDebugNeg.base._debug = max gNeg.gDebugLevel 0
      ∧ 0 ≤ stDebugNeg.base._debug)
    ∧ (stepDebugNeg.base._debug = max gNeg.gDebugLevel 0
      ∧ 0 ≤ stepDebugNeg.base._debug)
    ∧ (varsDebugNeg.base._debug = max gNeg.gDebugLevel 0
      ∧ 0 ≤ varsDebugNeg.base._debug) :=
  ⟨(constructors_require_gMain.2 gNeg).1
      (baseDebugNeg CmdCode.STOP CallerData.none) rfl,
    (constructors_require_gMain.2 gNeg).2.1
      (baseDebugNeg CmdCode.CONTINUE (CallerData.bool false)) rfl,
    (constructors_require_gMain.2 gNeg).2.2.1
      (baseDebugNeg CmdCode.EXIT_CHANNEL (CallerData.bool false)) rfl,
    (constructors_require_gMain.2 gNeg).2.2.2.1 CallerData.none
      (baseDebugNeg CmdCode.THREADS CallerData.none) rfl,
    (constructors_require_gMain.2 gNeg).2.2.2.2.1 0 CallerData.none
      stDebugNeg rfl,
    (constructors_require_gMain.2 gNeg).2.2.2.2.2.1 0
      (StepArg.stepType StepType.LINE) stepDebugNeg rfl,
    (constructors_require_gMain.2 gNeg).2.2.2.2.2.2 0 0 Option.none false
      CallerData.none varsDebugNeg (by decide)⟩

/-- A request of any variant, for reasoning about sequences of sends on
one connection. -/
inductive AnyRequest where
  | noParams (r : DebuggerRequest)
  | stacktrace (r : DebuggerRequest_Stacktrace)
  | step (r : DebuggerRequest_Step)
  | vars (r : DebuggerRequest_Variables)
deriving DecidableEq, Repr

/-- The request identifier currently stored in a request. -/
def AnyRequest.rid : AnyRequest → Option Nat
  | .noParams r => r.request_id
  | .stacktrace r => r.base.request_id
  | .step r => r.base.request_id
  | .vars r => r.base.request_id

/-- Dispatch to the variant's send method. -/
def AnyRequest.send {σ : Type} (dc : DebuggerClient σ) :
    AnyRequest → σ → Except String (AnyRequest × σ)
  | .noParams r, s =>
    match _DebuggerRequest_NoParams.send dc r s with
    | Except.error e => Except.error e
    | Except.ok (_, r', s') => Except.ok (AnyRequest.noParams r', s')
  | .stacktrace r, s =>
    match DebuggerRequest_Stacktrace.send dc r s with
    | Except.error e => Except.error e
    | Except.ok (r', s') => Except.ok (AnyRequest.stacktrace r', s')
  | .step r, s =>
    match DebuggerRequest_Step.send dc r s with
    | Except.error e => Except.error e
    | Except.ok (r', s') => Except.ok (AnyRequest.step r', s')
  | .vars r, s =>
    match DebuggerRequest_Variables.send dc r s with
    | Except.error e => Except.error e
    | Except.ok (r', s') => Except.ok (AnyRequest.vars r', s')

/-- Request identifiers assigned across a sequence of sends (the sequence
stops at the first failing send). -/
def sendAllIds {σ : Type} (dc : DebuggerClient σ) :
    List AnyRequest → σ → List Nat
  | [], _ => []
  | a :: rest, s =>
    match AnyRequest.send dc a s with
    | Except.error _ => []
    | Except.ok (a', s') => (a'.rid).toList ++ sendAllIds dc rest s'

/-- The claim's hypothesis on the codec: with `idOf` reading the codec's
identifier counter, the next-identifier source returns the current counter
and strictly increases it on each call, while plain writes never decrease
it — so each call yields a fresh, monotonically increasing value. -/
structure FreshIdSource {σ : Type} (dc : DebuggerClient σ)
    (idOf : σ → Nat) : Prop where
  get_val : ∀ t, (dc.get_next_request_id t).1 = idOf t
  get_mono : ∀ t, idOf t < idOf (dc.get_next_request_id t).2
  uint_mono : ∀ v t, idOf t ≤ idOf (dc.send_uint v t).2
  byte_mono : ∀ v t, idOf t ≤ idOf (dc.send_byte v t).2
  str_mono : ∀ v t, idOf t ≤ idOf (dc.send_str v t).2

theorem send_base_fields_fresh {σ : Type} {dc : DebuggerClient σ}
    {idOf : σ → Nat} (hc : FreshIdSource dc idOf) (req : DebuggerRequest)
    (ps : Nat) (s : σ) (n : Nat) (req' : DebuggerRequest) (s' : σ)
    (h : _send_base_fields dc req ps s = Except.ok (n, req', s')) :
    req'.request_id = Option.some (idOf s) ∧ idOf s < idOf s' := by
  unfold _send_base_fields at h
  simp only [] at h
  split at h
  · simp at h
  · simp only [Except.ok.injEq, Prod.mk.injEq] at h
    obtain ⟨-, hreq, hs⟩ := h
    constructor
    · rw [← hreq]
      simp [hc.get_val s]
    · rw [← hs]
      exact lt_of_lt_of_le (hc.get_mono s)
        (le_trans (hc.uint_mono _ _)
          (le_trans (hc.uint_mono _ _) (hc.uint_mono _ _)))

theorem sendVariablePath_mono {σ : Type} {dc : DebuggerClient σ}
    {idOf : σ → Nat} (hc : FreshIdSource dc idOf) (path : List String) :
    ∀ s : σ, idOf s ≤ idOf (sendVariablePath dc path s) := by
  induction path with
  | nil => intro s; exact le_refl _
  | cons x xs ih =>
    intro s
    exact le_trans (hc.str_mono x s) (ih (dc.send_str x s).2)

theorem anyRequest_send_fresh {σ : Type} {dc : DebuggerClient σ}
    {idOf : σ → Nat} (hc : FreshIdSource dc idOf) (a : AnyRequest) (s : σ)
    (a' : AnyRequest) (s' : σ)
    (h : AnyRequest.send dc a s = Except.ok (a', s')) :
    a'.rid = Option.some (idOf s) ∧ idOf s < idOf s' := by
  cases a with
  | noParams r =>
    simp only [AnyRequest.send] at h
    split at h
    · simp at h
    · rename_i n1 r1 s1 heq
      simp only [Except.ok.injEq, Prod.mk.injEq] at h
      obtain ⟨ha, hs⟩ := h
      obtain ⟨hrid, hlt⟩ := send_base_fields_fresh hc r
        NO_PARAMS_REQUEST_SIZE s n1 r1 s1 heq
      subst hs
      rw [← ha]
      exact ⟨hrid, hlt⟩
  | stacktrace r =>
    simp only [AnyRequest.send] at h
    split at h
    · simp at h
    · rename_i r1 s1 heq
      unfold DebuggerRequest_Stacktrace.send at heq
      split at heq
      · simp at heq
      · rename_i n2 base1 s2 heq2
        simp only [Except.ok.injEq, Prod.mk.injEq] at heq h
        obtain ⟨hr1, hs1⟩ := heq
        obtain ⟨ha, hs⟩ := h
        obtain ⟨hrid, hlt⟩ := send_base_fields_fresh hc r.base
          r._request_size s n2 base1 s2 heq2
        subst hs
        rw [← ha, ← hr1, ← hs1]
        exact ⟨hrid, lt_of_lt_of_le hlt (hc.uint_mono _ _)⟩
  | step r =>
    simp only [AnyRequest.send] at h
    split at h
    · simp at h
    · rename_i r1 s1 heq
      unfold DebuggerRequest_Step.send at heq
      split at heq
      · simp at heq
      · rename_i n2 base1 s2 heq2
        simp only [Except.ok.injEq, Prod.mk.injEq] at heq h
        obtain ⟨hr1, hs1⟩ := heq
        obtain ⟨ha, hs⟩ := h
        obtain ⟨hrid, hlt⟩ := send_base_fields_fresh hc r.base
          r._request_size s n2 base1 s2 heq2
        subst hs
        rw [← ha, ← hr1, ← hs1]
        exact ⟨hrid, lt_of_lt_of_le hlt
          (le_trans (hc.uint_mono _ _) (hc.byte_mono _ _))⟩
  | vars r =>
    simp only [AnyRequest.send] at h
    split at h
    · simp at h
    · rename_i r1 s1 heq
      unfold DebuggerRequest_Variables.send at heq
      split at heq
      · simp at heq
      · rename_i n2 base1 s2 heq2
        simp only [Except.ok.injEq, Prod.mk.injEq] at heq h
        obtain ⟨hr1, hs1⟩ := heq
        obtain ⟨ha, hs⟩ := h
        obtain ⟨hrid, hlt⟩ := send_base_fields_fresh hc r.base
          r._request_size s n2 base1 s2 heq2
        subst hs
        rw [← ha, ← hr1, ← hs1]
        refine ⟨hrid, lt_of_lt_of_le hlt ?_⟩
        exact le_trans (hc.byte_mono _ _)
          (le_trans (hc.uint_mono _ _)
            (le_trans (hc.uint_mono _ _)
              (le_trans (hc.uint_mono _ _)
                (sendVariablePath_mono hc r.variable_path _))))

theorem sendAllIds_lower_bound {σ : Type} {dc : DebuggerClient σ}
    {idOf : σ → Nat} (hc : FreshIdSource dc idOf) (reqs : List AnyRequest) :
    ∀ (s : σ) (x : Nat), x ∈ sendAllIds dc reqs s → idOf s ≤ x := by
  induction reqs with
  | nil => intro s x hx; simp [sendAllIds] at hx
  | cons a rest ih =>
    intro s x hx
    rw [show sendAllIds dc (a :: rest) s =
      (match AnyRequest.send dc a s with
       | Except.error _ => []
       | Except.ok (a', s') => (a'.rid).toList ++ sendAllIds dc rest s')
      from rfl] at hx
    cases hsend : AnyRequest.send dc a s with
    | error e => rw [hsend] at hx; simp at hx
    | ok p =>
      obtain ⟨a', s'⟩ := p
      rw [hsend] at hx
      obtain ⟨hrid, hlt⟩ := anyRequest_send_fresh hc a s a' s' hsend
      simp only [hrid, Option.toList_some, List.singleton_append,
        List.mem_cons] at hx
      cases hx with
      | inl heq => exact le_of_eq heq.symm
      | inr hmem => exact le_trans (le_of_lt hlt) (ih s' x hmem)


/-- C8: with a codec whose next-identifier source returns a fresh,
monotonically increasing value on each call, the identifiers assigned
across any sequence of sends are pairwise distinct and non-decreasing. -/
theorem request_ids_distinct_nondecreasing {σ : Type}
    (dc : DebuggerClient σ) (idOf : σ → Nat) (hc : FreshIdSource dc idOf)
    (reqs : List AnyRequest) : ∀ s : σ,
    List.Pairwise (fun a b => a ≠ b ∧ a ≤ b) (sendAllIds dc reqs s) := by
  induction reqs with
  | nil => intro s; simp [sendAllIds]
  | cons a rest ih =>
    intro s
    rw [show sendAllIds dc (a :: rest) s =
      (match AnyRequest.send dc a s with
       | Except.error _ => []
       | Except.ok (a', s') => (a'.rid).toList ++ sendAllIds dc rest s')
      from rfl]
    cases hsend : AnyRequest.send dc a s with
    | error e => simp
    | ok p =>
      obtain ⟨a', s'⟩ := p
      obtain ⟨hrid, hlt⟩ := anyRequest_send_fresh hc a s a' s' hsend
      simp only [hrid, Option.toList_some, List.singleton_append]
      refine List.Pairwise.cons ?_ (ih s')
      intro x hx
      have hge := sendAllIds_lower_bound hc rest s' x hx
      have hlt2 : idOf s < x := lt_of_lt_of_le hlt hge
      exact ⟨Nat.ne_of_lt hlt2, le_of_lt hlt2⟩

/-- Witness for C8: two Stacktrace requests sent back-to-back through the
contractual codec receive pairwise distinct, non-decreasing identifiers. -/
theorem request_ids_distinct_nondecreasing_witness :
    List.Pairwise (fun a b => a ≠ b ∧ a ≤ b)
      (sendAllIds spec_codec
        [AnyRequest.stacktrace stReq3, AnyRequest.stacktrace stReq3]
        { next_id := 0, trace := [] }) :=
  request_ids_distinct_nondecreasing spec_codec CodecState.next_id
    { get_val := fun _ => rfl
      get_mono := fun t => Nat.lt_succ_self t.next_id
      uint_mono := fun _ t => le_refl t.next_id
      byte_mono := fun _ t => le_refl t.next_id
      str_mono := fun _ t => le_refl t.next_id }
    [AnyRequest.stacktrace stReq3, AnyRequest.stacktrace stReq3]
    { next_id := 0, trace := [] }

end RokuDebug
